import Mathlib

/-
Verification of the low-level Azure IoT Hub device client engine declared in
`iothub_client_ll.h`.  The repository ships only the public header (the opaque
handle and the `IoTHubClient_LL_*` operation declarations); the engine behind
those declarations is modelled here from the design specification, component by
component: retry-policy engine, connection-state tracker, outbound message
queue, device-method dispatcher, device-twin synchronizer, blob-upload
orchestrator, runtime option surface and the inbound-message callback slot.
-/

/-- Modelled from the spec: the closed set of result codes returned by every
mutating `IoTHubClient_LL_*` operation (the `IOTHUB_CLIENT_RESULT` enumeration
lives in `iothub_client_core_common.h`, which is not under src).  Spec section 6:
"OK vs a closed set of failure reasons — invalid argument, not supported by this
transport, already in progress, handle invalid/torn down". -/
inductive ClientResult
  | ok
  | invalidArg
  | notSupported
  | alreadyInProgress
  | handleInvalid
deriving DecidableEq, Repr

/-! ### Retry Policy Engine -/

/-- Modelled from the spec: the retry-policy variants of
`IoTHubClient_LL_SetRetryPolicy` (the engine implementation is not under src).
Spec section 3: "Variants (design-level): None, Immediate, Interval,
Exponential-with-jitter, Exponential-without-jitter, Random", with their
duration parameters. -/
inductive RetryPolicy
  | none
  | immediate
  | interval (d : Nat)
  | exponentialBackoff (base maxDelay : Nat)
  | exponentialBackoffWithJitter (base maxDelay : Nat)
  | random (maxDelay : Nat)
deriving DecidableEq, Repr

/-- Modelled from the spec: the capped exponential backoff delay,
`min(maxDelay, base * 2^attemptNumber)` (spec section 4.1). -/
def expDelay (base maxDelay attemptNumber : Nat) : Nat :=
  min maxDelay (base * 2 ^ attemptNumber)

/-- Modelled from the spec: the Retry Policy Engine contract
`nextRetryDelay(policy, attemptNumber, elapsedSinceFirstFailure) -> Duration | GiveUp`
(spec section 4.1); the implementation is not under src.  `Option.none` encodes
`GiveUp`.  A `ceiling` of `0` means "unset / retry indefinitely" (spec: edge
case for a ceiling of 0 or unset).  `rand` is the injected randomness source
used by the jitter and random variants (spec section 9 asks for injected
nondeterminism); jitter is bounded to half of the computed delay. -/
def nextRetryDelay (p : RetryPolicy) (attemptNumber elapsed ceiling rand : Nat) :
    Option Int :=
  if 0 < ceiling ∧ ceiling < elapsed then Option.none
  else
    match p with
    | RetryPolicy.none => Option.none
    | RetryPolicy.immediate => some 0
    | RetryPolicy.interval d => some (d : Int)
    | RetryPolicy.exponentialBackoff base maxDelay =>
        some ((expDelay base maxDelay attemptNumber : Nat) : Int)
    | RetryPolicy.exponentialBackoffWithJitter base maxDelay =>
        some (((expDelay base maxDelay attemptNumber : Nat) : Int) +
              ((rand % (2 * (expDelay base maxDelay attemptNumber / 2) + 1) : Nat) : Int) -
              ((expDelay base maxDelay attemptNumber / 2 : Nat) : Int))
    | RetryPolicy.random maxDelay => some ((rand % (maxDelay + 1) : Nat) : Int)

/-! ### Connection State Tracker -/

/-- Modelled from the spec: disconnect reasons surfaced through the
connection-status callback registered by
`IoTHubClient_LL_SetConnectionStatusCallback` (spec sections 4.2 and 3). -/
inductive ConnReason
  | retryExpired
  | expiredSasToken
  | communicationError
  | noNetwork
deriving DecidableEq, Repr

/-- Modelled from the spec: the Connection State Tracker states
`NotConnected → Authenticated ⇄ Disconnected(reason)` (spec section 4.2);
the tracker implementation is not under src. -/
inductive ConnState
  | notConnected
  | authenticated
  | disconnected (r : ConnReason)
deriving DecidableEq, Repr

/-- Modelled from the spec: the status half of the connection-status callback
payload (status=Connected / status=Disconnected). -/
inductive ConnStatus
  | connected
  | disconnected
deriving DecidableEq, Repr

/-- Modelled from the spec: the reason half of the connection-status callback
payload: `OK` on successful authentication, otherwise a specific reason. -/
inductive StatusReason
  | ok
  | because (r : ConnReason)
deriving DecidableEq, Repr

/-- Modelled from the spec: the events fed to the Connection State Tracker
(spec section 4.2): transport reports successful authentication, transport
reports a recoverable failure, or the Retry Policy Engine returns `GiveUp`. -/
inductive ConnEvent
  | authSucceeded
  | transportFailure (r : ConnReason)
  | retryGiveUp
deriving DecidableEq, Repr

/-- Modelled from the spec: one transition of the Connection State Tracker,
returning the new state together with the connection-status callback payload
fired on that edge (`Option.none` when no callback fires).  Spec section 4.2:
the (Connected, OK) callback fires only if the previous state was not
Authenticated; a recoverable failure while Authenticated fires the specific
reason; `GiveUp` moves to the terminal `Disconnected(retry-expired)` state and
fires once.  The tracker implementation is not under src. -/
def connStep (s : ConnState) (ev : ConnEvent) :
    ConnState × Option (ConnStatus × StatusReason) :=
  match ev with
  | ConnEvent.authSucceeded =>
      if s = ConnState.authenticated then (s, Option.none)
      else (ConnState.authenticated, some (ConnStatus.connected, StatusReason.ok))
  | ConnEvent.transportFailure r =>
      match s with
      | ConnState.authenticated =>
          (ConnState.disconnected r,
           some (ConnStatus.disconnected, StatusReason.because r))
      | _ => (s, Option.none)
  | ConnEvent.retryGiveUp =>
      match s with
      | ConnState.disconnected r =>
          if r = ConnReason.retryExpired then (s, Option.none)
          else (ConnState.disconnected ConnReason.retryExpired,
                some (ConnStatus.disconnected, StatusReason.because ConnReason.retryExpired))
      | _ => (s, Option.none)

/-- Modelled from the spec: whether the Scheduler still consults the Retry
Policy Engine for automatic reconnection in this state.  Spec section 4.2:
while `Disconnected(reason)` the engine is consulted on every tick, except in
the terminal `Disconnected(retry-expired)` state ("no further automatic
reconnection attempts"). -/
def attemptsReconnect : ConnState → Bool
  | ConnState.disconnected ConnReason.retryExpired => false
  | ConnState.disconnected _ => true
  | _ => false

/-! ### Outbound Message Queue -/

/-- Modelled from the spec: a `PendingMessage` queue entry created by
`IoTHubClient_LL_SendEventAsync` — payload identity, whether a (non-null)
confirmation callback was supplied, and the delivery attempt count
(spec section 3); the queue implementation is not under src. -/
structure PendingMessage where
  msgId : Nat
  hasCallback : Bool
  attempts : Nat
deriving DecidableEq, Repr

/-- Modelled from the spec: the terminal outcome delivered to a confirmation
callback — transport acknowledgment (OK) or fatal failure (spec section 4.3). -/
inductive ConfirmResult
  | confirmedOk
  | confirmedFailed
deriving DecidableEq, Repr

/-- Modelled from the spec: the Outbound Message Queue state — pending entries
in FIFO enqueue order, plus the log of resolved entries in the order their
terminal confirmation callbacks fired. -/
structure QueueState where
  pending : List PendingMessage
  resolved : List (PendingMessage × ConfirmResult)
deriving DecidableEq, Repr

/-- Modelled from the spec: the observable events driving the queue — an
enqueue via `IoTHubClient_LL_SendEventAsync`, or a `DoWork` tick in which the
transport reports the in-flight head message's attempt as acknowledged, fatally
failed, or transiently failed (spec section 4.3).  The head is the only
in-flight message: "a message is never skipped over an earlier unresolved
message", and later messages are only attempted after the head resolves. -/
inductive QueueEvent
  | enqueue (m : PendingMessage)
  | tickAck
  | tickFatal
  | tickTransient
deriving DecidableEq, Repr

/-- The empty Outbound Message Queue of a freshly created handle. -/
def initQueue : QueueState := ⟨[], []⟩

/-- Modelled from the spec: one step of the Outbound Message Queue
(spec section 4.3 `Enqueue` / `DrainTick`): enqueue appends; an acknowledged or
fatally failed head fires its terminal confirmation and is removed; a transient
failure increments the attempt count and leaves the head queued. -/
def queueStep (s : QueueState) : QueueEvent → QueueState
  | QueueEvent.enqueue m => { s with pending := s.pending ++ [m] }
  | QueueEvent.tickAck =>
      match s.pending with
      | [] => s
      | m :: rest =>
          { pending := rest, resolved := s.resolved ++ [(m, ConfirmResult.confirmedOk)] }
  | QueueEvent.tickFatal =>
      match s.pending with
      | [] => s
      | m :: rest =>
          { pending := rest, resolved := s.resolved ++ [(m, ConfirmResult.confirmedFailed)] }
  | QueueEvent.tickTransient =>
      match s.pending with
      | [] => s
      | m :: rest => { s with pending := { m with attempts := m.attempts + 1 } :: rest }

/-- Run the Outbound Message Queue over a whole event trace from the initial
(empty) queue. -/
def runQueue (evs : List QueueEvent) : QueueState := evs.foldl queueStep initQueue

/-- The identity of a queue entry that is stable across retries: message id and
whether a confirmation callback was registered. -/
def msgKey (m : PendingMessage) : Nat × Bool := (m.msgId, m.hasCallback)

/-- All message keys held by the queue state: resolved first (in confirmation
order), then still-pending (in FIFO order). -/
def queueKeys (s : QueueState) : List (Nat × Bool) :=
  s.resolved.map (fun e => msgKey e.1) ++ s.pending.map msgKey

/-- The keys of the messages enqueued by a trace, in enqueue order. -/
def enqueuedKeys (evs : List QueueEvent) : List (Nat × Bool) :=
  evs.filterMap (fun e =>
    match e with
    | QueueEvent.enqueue m => some (msgKey m)
    | _ => Option.none)

/-- The ids of the messages enqueued by a trace, in enqueue order. -/
def enqueuedIds (evs : List QueueEvent) : List Nat :=
  (enqueuedKeys evs).map (fun k => k.1)

/-- The ids of the messages enqueued with a non-null confirmation callback, in
enqueue order. -/
def callbackIds (evs : List QueueEvent) : List Nat :=
  ((enqueuedKeys evs).filter (fun k => k.2)).map (fun k => k.1)

/-- The ids of the resolved messages whose confirmation callback actually fired
(those enqueued with a non-null callback), in firing order. -/
def firedIds (s : QueueState) : List Nat :=
  (s.resolved.filter (fun e => e.1.hasCallback)).map (fun e => e.1.msgId)

/-- The ids of all resolved messages, in resolution order. -/
def resolvedIds (s : QueueState) : List Nat :=
  s.resolved.map (fun e => e.1.msgId)

/-! ### Device Method Dispatcher -/

/-- Modelled from the spec: the Device Method Dispatcher correlation state for
the asynchronous mode behind `IoTHubClient_LL_DeviceMethodResponse` (the
dispatcher implementation is not under src).  `live` holds the methodIds of
inbound invocations not yet responded to; `answered` is the log of methodIds
whose response has been forwarded to the transport, one entry per forwarded
response (spec sections 3 and 4.5). -/
structure MethodState where
  live : List Nat
  answered : List Nat
deriving DecidableEq, Repr

/-- The dispatcher state of a freshly created handle: no live invocations, no
forwarded responses. -/
def initMethods : MethodState := ⟨[], []⟩

/-- Modelled from the spec: arrival of an inbound asynchronous method
invocation carrying a transport-issued correlation token (spec section 3:
"methodId (opaque correlation token issued by the transport/cloud side)").
Tokens pair one request with one response, so a token equal to a live or
already-answered one is not re-admitted. -/
def inboundMethodRequest (s : MethodState) (methodId : Nat) : MethodState :=
  if methodId ∈ s.live ∨ methodId ∈ s.answered then s
  else { s with live := s.live ++ [methodId] }

/-- Modelled from the spec: `IoTHubClient_LL_DeviceMethodResponse` (the
implementation is not under src).  A live, unanswered methodId is resolved:
removed from `live`, its response forwarded to the transport (logged in
`answered`), returning OK.  An unknown or already-answered methodId is a
correlation error returned to the caller, with no state change
(spec sections 4.5 and 3: "a second response for the same methodId is rejected
as an error, not silently dropped"). -/
def deviceMethodResponse (s : MethodState) (methodId : Nat) :
    MethodState × ClientResult :=
  if methodId ∈ s.live then
    ({ live := s.live.erase methodId, answered := s.answered ++ [methodId] },
     ClientResult.ok)
  else (s, ClientResult.invalidArg)

/-- Modelled from the spec: the observable events driving the Device Method
Dispatcher — an inbound invocation, or a device-code response attempt. -/
inductive MethodEvent
  | inbound (methodId : Nat)
  | respond (methodId : Nat)
deriving DecidableEq, Repr

/-- One step of the Device Method Dispatcher. -/
def methodStep (s : MethodState) : MethodEvent → MethodState
  | MethodEvent.inbound id => inboundMethodRequest s id
  | MethodEvent.respond id => (deviceMethodResponse s id).1

/-- Run the Device Method Dispatcher over a whole event trace from the initial
state. -/
def runMethods (evs : List MethodEvent) : MethodState :=
  evs.foldl methodStep initMethods

/-- Well-formedness of the dispatcher state: live tokens are distinct, at most
one response was ever forwarded per token, and no token is both live and
answered. -/
def methodsWF (s : MethodState) : Prop :=
  s.live.Nodup ∧ s.answered.Nodup ∧ ∀ id, id ∈ s.live → id ∉ s.answered

/-! ### Device Twin Synchronizer -/

/-- Modelled from the spec: the Device Twin Synchronizer desired-property state
behind `IoTHubClient_LL_SetDeviceTwinCallback` (the synchronizer implementation
is not under src): the currently tracked desired version (`Option.none` before
any patch was applied) and the log of versions for which the device-twin
callback was invoked, in invocation order (spec sections 3 and 4.4). -/
structure TwinState where
  desiredVersion : Option Nat
  callbackLog : List Nat
deriving DecidableEq, Repr

/-- Modelled from the spec: application of an inbound desired-property patch
with version `v` (spec section 4.4): applied and forwarded to the device-twin
callback only if `v` is newer than the currently tracked desired version;
duplicate or out-of-order patches are dropped silently. -/
def applyDesiredPatch (s : TwinState) (v : Nat) : TwinState :=
  match s.desiredVersion with
  | Option.none => { desiredVersion := some v, callbackLog := s.callbackLog ++ [v] }
  | some cur =>
      if cur < v then { desiredVersion := some v, callbackLog := s.callbackLog ++ [v] }
      else s

/-! ### Blob Upload Orchestrator -/

/-- Modelled from the spec: the Blob Upload Orchestrator single-session state
machine `Idle → Uploading → {Completed, Aborted, Failed}` behind
`IoTHubClient_LL_UploadMultipleBlocksToBlobEx` (the orchestrator implementation
is not under src; spec sections 3 and 4.6). -/
inductive UploadSessionState
  | idle
  | uploading
  | completed
  | aborted
  | failed
deriving DecidableEq, Repr

/-- Whether a blob-upload session state is terminal (spec section 4.6:
Completed, Aborted, Failed). -/
def uploadSessionTerminal : UploadSessionState → Bool
  | UploadSessionState.completed => true
  | UploadSessionState.aborted => true
  | UploadSessionState.failed => true
  | _ => false

/-- Modelled from the spec: starting a blob-upload session
(`IoTHubClient_LL_UploadMultipleBlocksToBlobEx`): while a session is already
active the call fails immediately with the "busy" / already-in-progress result
and nothing is queued; otherwise a new session becomes active
(spec section 4.6). -/
def startUploadSession (s : UploadSessionState) :
    UploadSessionState × ClientResult :=
  if s = UploadSessionState.uploading then (s, ClientResult.alreadyInProgress)
  else (UploadSessionState.uploading, ClientResult.ok)

/-- Modelled from the spec: the terminal events of an active upload session
(spec section 4.6): the device signals no more data, the device requests an
abort, or the storage transport fails. -/
inductive UploadOutcome
  | noMoreData
  | deviceAbort
  | transportError
deriving DecidableEq, Repr

/-- Modelled from the spec: how an upload session reacts to a terminal event —
only an active (Uploading) session transitions, to the matching distinct
terminal state (spec section 4.6). -/
def uploadSessionStep : UploadSessionState → UploadOutcome → UploadSessionState
  | UploadSessionState.uploading, UploadOutcome.noMoreData => UploadSessionState.completed
  | UploadSessionState.uploading, UploadOutcome.deviceAbort => UploadSessionState.aborted
  | UploadSessionState.uploading, UploadOutcome.transportError => UploadSessionState.failed
  | s, _ => s

/-- Modelled from the spec: `IoTHubClient_LL_UploadToBlob` (the implementation
is not under src).  Header contract: `source` is a pointer that can be NULL,
"if source is NULL then size needs to be 0"; a NULL source with a nonzero size
is a caller-misuse error detected synchronously (spec section 7: invalid
argument, never silently swallowed) and no upload session is started.
Otherwise the blocking upload runs the session to completion. -/
def uploadToBlob (s : UploadSessionState) (destinationFileName : String)
    (source : Option (List Nat)) (size : Nat) :
    UploadSessionState × ClientResult :=
  if source = Option.none ∧ size ≠ 0 then (s, ClientResult.invalidArg)
  else if s = UploadSessionState.uploading then (s, ClientResult.alreadyInProgress)
  else (UploadSessionState.completed, ClientResult.ok)

/-! ### Runtime option surface -/

/-- Modelled from the spec: the option names recognized by
`IoTHubClient_LL_SetOption`, as documented in the header: communication
timeout, the CURL transport tuning knobs, keep-alive interval, log-trace
toggle, and SAS-token lifetime (header lines 246-276; spec section 6). -/
def recognizedOptions : List String :=
  ["timeout", "CURLOPT_LOW_SPEED_LIMIT", "CURLOPT_LOW_SPEED_TIME",
   "CURLOPT_FORBID_REUSE", "CURLOPT_FRESH_CONNECT", "CURLOPT_VERBOSE",
   "keepalive", "logtrace", "sas_token_lifetime"]

/-- Modelled from the spec: the string-keyed runtime configuration of a client
handle, as written by `IoTHubClient_LL_SetOption`. -/
structure ClientOptions where
  settings : List (String × Nat)
deriving DecidableEq, Repr

/-- Modelled from the spec: `IoTHubClient_LL_SetOption` (the implementation is
not under src).  A recognized option name records its value and returns OK; an
unknown option name fails with the distinct "not supported" outcome and leaves
the configuration unchanged (spec section 6). -/
def setOption (cfg : ClientOptions) (optionName : String) (value : Nat) :
    ClientOptions × ClientResult :=
  if optionName ∈ recognizedOptions then
    ({ settings := (optionName, value) :: cfg.settings }, ClientResult.ok)
  else (cfg, ClientResult.notSupported)

/-! ### Inbound-message callback slot -/

/-- Modelled from the spec: the single inbound-message callback slot of a
client handle ("At any given moment in time there can only be at most 1 message
callback function", header lines 8-11).  A registration is a callback identity
paired with its user context; `Option.none` means no callback registered. -/
structure MessageCallbackState where
  messageCallback : Option (Nat × Nat)
deriving DecidableEq, Repr

/-- Modelled from the spec: `IoTHubClient_LL_SetMessageCallback` (the
implementation is not under src): every successful call replaces whatever
callback and context were previously registered. -/
def setMessageCallback (s : MessageCallbackState) (cb : Option (Nat × Nat)) :
    MessageCallbackState × ClientResult :=
  ({ messageCallback := cb }, ClientResult.ok)

/-- Modelled from the spec: which registered callback (with its context) an
inbound message is delivered to — the one currently in the slot. -/
def deliverInboundMessage (s : MessageCallbackState) : Option (Nat × Nat) :=
  s.messageCallback

/-- The last registration of a sequence of `setMessageCallback` calls, with a
default for the empty sequence. -/
def lastRegistered : List (Option (Nat × Nat)) → Option (Nat × Nat) → Option (Nat × Nat)
  | [], dflt => dflt
  | c :: cs, _ => lastRegistered cs c

/-! ### Theorems -/

/-- C2 (amended): for a positive ceiling, every delay returned by
`nextRetryDelay` is non-negative; once elapsed time exceeds the ceiling every
call returns GiveUp for every variant; within the ceiling every variant other
than None returns a delay; and feeding GiveUp to the Connection State Tracker
from any recoverable disconnected state puts it in the terminal
Disconnected(retry-expired) state, where no reconnection is attempted. -/
theorem retry_policy_ceiling (p : RetryPolicy) (a e c rand : Nat) (hc : 0 < c) :
    (∀ d : Int, nextRetryDelay p a e c rand = some d → 0 ≤ d) ∧
    (c < e → nextRetryDelay p a e c rand = Option.none) ∧
    (e ≤ c → p ≠ RetryPolicy.none → (nextRetryDelay p a e c rand).isSome = true) ∧
    (∀ r, r ≠ ConnReason.retryExpired →
      connStep (ConnState.disconnected r) ConnEvent.retryGiveUp =
        (ConnState.disconnected ConnReason.retryExpired,
         some (ConnStatus.disconnected, StatusReason.because ConnReason.retryExpired))) ∧
    connStep (ConnState.disconnected ConnReason.retryExpired) ConnEvent.retryGiveUp =
      (ConnState.disconnected ConnReason.retryExpired, Option.none) ∧
    attemptsReconnect (ConnState.disconnected ConnReason.retryExpired) = false := by
  refine ⟨?_, ?_, ?_, ?_, ?_, ?_⟩
  · intro d hd
    unfold nextRetryDelay at hd
    by_cases hg : 0 < c ∧ c < e
    · rw [if_pos hg] at hd
      exact Option.noConfusion hd
    · rw [if_neg hg] at hd
      cases p with
      | none => exact Option.noConfusion hd
      | immediate =>
          injection hd with hd'
          omega
      | interval dd =>
          injection hd with hd'
          omega
      | exponentialBackoff base maxDelay =>
          injection hd with hd'
          omega
      | exponentialBackoffWithJitter base maxDelay =>
          injection hd with hd'
          have h1 : expDelay base maxDelay a / 2 ≤ expDelay base maxDelay a :=
            Nat.div_le_self _ _
          omega
      | random maxDelay =>
          injection hd with hd'
          omega
  · intro he
    unfold nextRetryDelay
    simp [hc, he]
  · intro he hp
    unfold nextRetryDelay
    have hg : ¬ (0 < c ∧ c < e) := by omega
    simp only [if_neg hg]
    cases p with
    | none => exact absurd rfl hp
    | immediate => simp
    | interval dd => simp
    | exponentialBackoff base maxDelay => simp
    | exponentialBackoffWithJitter base maxDelay => simp
    | random maxDelay => simp
  · intro r hr
    simp [connStep, hr]
  · simp [connStep]
  · rfl

/-- Witness for C2 at concrete inputs: with the Interval(5) policy and ceiling
10, elapsed 20 gives GiveUp and elapsed 3 still yields a delay. -/
theorem retry_policy_ceiling_witness :
    nextRetryDelay (RetryPolicy.interval 5) 0 20 10 0 = Option.none ∧
    (nextRetryDelay (RetryPolicy.interval 5) 0 3 10 0).isSome = true :=
  ⟨(retry_policy_ceiling (RetryPolicy.interval 5) 0 20 10 0 (by decide)).2.1 (by decide),
   (retry_policy_ceiling (RetryPolicy.interval 5) 0 3 10 0 (by decide)).2.2.1
     (by decide) (by decide)⟩

/-- C2 counterexample: under the None variant, with the positive ceiling 10 and
elapsed time 0 (well within the ceiling), `nextRetryDelay` returns GiveUp, not
a delay — refuting "for every retry-policy variant ... returns a non-negative
delay while elapsedSinceFirstFailure is within the ceiling". -/
theorem retry_policy_ceiling_counterexample :
    (0 : Nat) < 10 ∧ (0 : Nat) ≤ 10 ∧
    nextRetryDelay RetryPolicy.none 0 0 10 0 = Option.none := by
  refine ⟨by decide, by decide, ?_⟩
  rfl

/-- C7 (amended): with a ceiling of 0 (unset), the engine's answer never
depends on the elapsed time, and for every variant other than None it is always
a retry delay, never GiveUp. -/
theorem zero_ceiling_retry_indefinite (p : RetryPolicy) (a e eAlt rand : Nat) :
    (p ≠ RetryPolicy.none → (nextRetryDelay p a e 0 rand).isSome = true) ∧
    nextRetryDelay p a e 0 rand = nextRetryDelay p a eAlt 0 rand := by
  constructor
  · intro hp
    unfold nextRetryDelay
    have hg : ¬ ((0:Nat) < 0 ∧ 0 < e) := by omega
    simp only [if_neg hg]
    cases p with
    | none => exact absurd rfl hp
    | immediate => simp
    | interval dd => simp
    | exponentialBackoff base maxDelay => simp
    | exponentialBackoffWithJitter base maxDelay => simp
    | random maxDelay => simp
  · unfold nextRetryDelay
    have hg : ¬ ((0:Nat) < 0 ∧ 0 < e) := by omega
    have hg2 : ¬ ((0:Nat) < 0 ∧ 0 < eAlt) := by omega
    simp only [if_neg hg, if_neg hg2]

/-- Witness for C7 at concrete inputs: Immediate policy, ceiling 0, elapsed
1000000 still yields a delay; and the answer at elapsed 1000000 equals the one
at elapsed 0. -/
theorem zero_ceiling_retry_indefinite_witness :
    (nextRetryDelay RetryPolicy.immediate 3 1000000 0 0).isSome = true ∧
    nextRetryDelay RetryPolicy.immediate 3 1000000 0 0 =
      nextRetryDelay RetryPolicy.immediate 3 0 0 0 :=
  ⟨(zero_ceiling_retry_indefinite RetryPolicy.immediate 3 1000000 0 0).1 (by decide),
   (zero_ceiling_retry_indefinite RetryPolicy.immediate 3 1000000 0 0).2⟩

/-- C7 counterexample: under the None variant with ceiling 0 (unset), attempt 0
and elapsed 7, `nextRetryDelay` returns GiveUp — refuting "for every attempt
number and every elapsed duration, nextRetryDelay under a zero/unset ceiling
yields a retry delay, not GiveUp". -/
theorem zero_ceiling_retry_counterexample :
    nextRetryDelay RetryPolicy.none 0 7 0 0 = Option.none := by
  rfl

/-- C5: the connection-status callback fires at most once per transition edge
of `connStep` and never for a no-op transition (a fired callback implies the
state changed); the (Connected, OK) payload is fired only when the previous
state was not Authenticated (and the new state is Authenticated); and a
successful authentication from any non-Authenticated state does fire exactly
that payload. -/
theorem connection_status_callback_edges (s : ConnState) (ev : ConnEvent) :
    ((connStep s ev).2.isSome = true → (connStep s ev).1 ≠ s) ∧
    ((connStep s ev).2 = some (ConnStatus.connected, StatusReason.ok) →
      s ≠ ConnState.authenticated ∧ (connStep s ev).1 = ConnState.authenticated) ∧
    (ev = ConnEvent.authSucceeded → s ≠ ConnState.authenticated →
      (connStep s ev).2 = some (ConnStatus.connected, StatusReason.ok)) := by
  cases ev with
  | authSucceeded =>
      by_cases hs : s = ConnState.authenticated
      · subst hs; simp [connStep]
      · simp [connStep, hs]
        exact fun h => hs h.symm
  | transportFailure r =>
      cases s with
      | notConnected => simp [connStep]
      | authenticated => simp [connStep]
      | disconnected r0 => simp [connStep]
  | retryGiveUp =>
      cases s with
      | notConnected => simp [connStep]
      | authenticated => simp [connStep]
      | disconnected r0 =>
          by_cases hr : r0 = ConnReason.retryExpired
          · subst hr; simp [connStep]
          · simp [connStep, hr]
            exact fun h => hr h.symm

/-- Witness for C5 at a concrete edge: authenticating from NotConnected fires
the (Connected, OK) callback, and that edge is a real state change. -/
theorem connection_status_callback_edges_witness :
    (connStep ConnState.notConnected ConnEvent.authSucceeded).2 =
      some (ConnStatus.connected, StatusReason.ok) ∧
    (connStep ConnState.notConnected ConnEvent.authSucceeded).1 ≠
      ConnState.notConnected :=
  ⟨(connection_status_callback_edges ConnState.notConnected ConnEvent.authSucceeded).2.2
     rfl (by decide),
   (connection_status_callback_edges ConnState.notConnected ConnEvent.authSucceeded).1
     (by decide)⟩

/-- One queue step extends the trace of message keys by exactly the keys it
enqueues: resolution moves the head key from the pending segment to the end of
the resolved segment, and a transient failure changes no key. -/
theorem queueStep_keys (s : QueueState) (e : QueueEvent) :
    queueKeys (queueStep s e) = queueKeys s ++ enqueuedKeys [e] := by
  cases e with
  | enqueue m => simp [queueStep, queueKeys, enqueuedKeys]
  | tickAck =>
      cases hp : s.pending with
      | nil => simp [queueStep, queueKeys, enqueuedKeys, hp]
      | cons m rest => simp [queueStep, queueKeys, enqueuedKeys, hp]
  | tickFatal =>
      cases hp : s.pending with
      | nil => simp [queueStep, queueKeys, enqueuedKeys, hp]
      | cons m rest => simp [queueStep, queueKeys, enqueuedKeys, hp]
  | tickTransient =>
      cases hp : s.pending with
      | nil => simp [queueStep, queueKeys, enqueuedKeys, hp]
      | cons m rest => simp [queueStep, queueKeys, enqueuedKeys, msgKey, hp]

/-- Running the queue over a trace appends exactly the enqueued keys to the
state's key trace. -/
theorem queueKeys_foldl (evs : List QueueEvent) :
    ∀ s : QueueState,
      queueKeys (evs.foldl queueStep s) = queueKeys s ++ enqueuedKeys evs := by
  induction evs with
  | nil => intro s; simp [enqueuedKeys]
  | cons e evs ih =>
      intro s
      rw [List.foldl_cons, ih, queueStep_keys, List.append_assoc]
      congr 1
      cases e <;> simp [enqueuedKeys]

/-- From the empty queue, the key trace after a run is exactly the enqueued
keys, in enqueue order. -/
theorem runQueue_keys (evs : List QueueEvent) :
    queueKeys (runQueue evs) = enqueuedKeys evs := by
  have h := queueKeys_foldl evs initQueue
  simpa [runQueue, initQueue, queueKeys] using h

/-- The resolved ids are the first components of the resolved keys. -/
theorem resolvedIds_eq_keys (s : QueueState) :
    resolvedIds s = (s.resolved.map (fun e => msgKey e.1)).map (fun k => k.1) := by
  simp [resolvedIds, msgKey, List.map_map]

/-- The fired ids are the first components of the resolved keys that carry a
callback. -/
theorem firedIds_eq_keys (s : QueueState) :
    firedIds s =
      ((s.resolved.map (fun e => msgKey e.1)).filter (fun k => k.2)).map
        (fun k => k.1) := by
  rw [firedIds, List.filter_map, List.map_map]
  rfl

/-- C1: over every trace of enqueues and transport-reported outcomes, each
message's confirmation callback fires at most as often as the message was
enqueued; when the queue fully drains, the fired callbacks are exactly the
messages enqueued with a non-null callback, in original enqueue order; and with
distinct message ids every callback fires at most once.  (The transport can
only report on the single in-flight head message, so terminal outcomes cannot
be reordered by acknowledgment order.) -/
theorem send_event_confirmations_fifo (evs : List QueueEvent) :
    (∀ id : Nat, (firedIds (runQueue evs)).count id ≤ (enqueuedIds evs).count id) ∧
    ((runQueue evs).pending = [] → firedIds (runQueue evs) = callbackIds evs) ∧
    ((enqueuedIds evs).Nodup → ∀ id : Nat, (firedIds (runQueue evs)).count id ≤ 1) := by
  have hkeys : queueKeys (runQueue evs) = enqueuedKeys evs := runQueue_keys evs
  have hsub : List.Sublist (firedIds (runQueue evs)) (resolvedIds (runQueue evs)) := by
    unfold firedIds resolvedIds
    exact (List.filter_sublist _).map _
  have hcount : ∀ id : Nat,
      (firedIds (runQueue evs)).count id ≤ (enqueuedIds evs).count id := by
    intro id
    have h1 := hsub.count_le id
    have h2 : resolvedIds (runQueue evs) ++
        ((runQueue evs).pending.map msgKey).map (fun k => k.1) = enqueuedIds evs := by
      rw [resolvedIds_eq_keys, ← List.map_append]
      have : (runQueue evs).resolved.map (fun e => msgKey e.1) ++
          (runQueue evs).pending.map msgKey = queueKeys (runQueue evs) := rfl
      rw [this, hkeys]
      rfl
    have h3 : (resolvedIds (runQueue evs)).count id ≤ (enqueuedIds evs).count id := by
      rw [← h2, List.count_append]
      omega
    omega
  refine ⟨hcount, ?_, ?_⟩
  · intro hpend
    rw [firedIds_eq_keys]
    have hres : (runQueue evs).resolved.map (fun e => msgKey e.1) = enqueuedKeys evs := by
      have h := hkeys
      unfold queueKeys at h
      rw [hpend] at h
      simpa using h
    rw [hres]
    rfl
  · intro hnodup id
    exact le_trans (hcount id) (List.nodup_iff_count_le_one.mp hnodup id)

/-- Witness for C1 on a concrete trace: enqueue messages 1 and 2 (both with
callbacks), a transient failure of 1, then an acknowledgment of 1 and a fatal
failure of 2 — the callbacks fire exactly for ids 1 then 2, in enqueue order. -/
theorem send_event_confirmations_fifo_witness :
    firedIds (runQueue
      [QueueEvent.enqueue ⟨1, true, 0⟩, QueueEvent.enqueue ⟨2, true, 0⟩,
       QueueEvent.tickTransient, QueueEvent.tickAck, QueueEvent.tickFatal]) =
      callbackIds
        [QueueEvent.enqueue ⟨1, true, 0⟩, QueueEvent.enqueue ⟨2, true, 0⟩,
         QueueEvent.tickTransient, QueueEvent.tickAck, QueueEvent.tickFatal] ∧
    (firedIds (runQueue
      [QueueEvent.enqueue ⟨1, true, 0⟩, QueueEvent.enqueue ⟨2, true, 0⟩,
       QueueEvent.tickTransient, QueueEvent.tickAck, QueueEvent.tickFatal])).count 1 ≤ 1 :=
  ⟨(send_event_confirmations_fifo
      [QueueEvent.enqueue ⟨1, true, 0⟩, QueueEvent.enqueue ⟨2, true, 0⟩,
       QueueEvent.tickTransient, QueueEvent.tickAck, QueueEvent.tickFatal]).2.1
      (by decide),
   (send_event_confirmations_fifo
      [QueueEvent.enqueue ⟨1, true, 0⟩, QueueEvent.enqueue ⟨2, true, 0⟩,
       QueueEvent.tickTransient, QueueEvent.tickAck, QueueEvent.tickFatal]).2.2
      (by decide) 1⟩

/-- One dispatcher step preserves well-formedness of the correlation state. -/
theorem methodStep_wf (s : MethodState) (e : MethodEvent) (h : methodsWF s) :
    methodsWF (methodStep s e) := by
  obtain ⟨hlive, hans, hdisj⟩ := h
  cases e with
  | inbound id =>
      simp only [methodStep, inboundMethodRequest]
      by_cases hmem : id ∈ s.live ∨ id ∈ s.answered
      · simpa [hmem] using ⟨hlive, hans, hdisj⟩
      · push_neg at hmem
        rw [if_neg (not_or.mpr hmem)]
        refine ⟨?_, hans, ?_⟩
        · simp [List.nodup_append, hlive, hmem.1]
        · intro x hx
          rcases List.mem_append.mp hx with hx | hx
          · exact hdisj x hx
          · simp at hx
            subst hx
            exact hmem.2
  | respond id =>
      simp only [methodStep, deviceMethodResponse]
      by_cases hmem : id ∈ s.live
      · simp only [if_pos hmem]
        refine ⟨hlive.erase id, ?_, ?_⟩
        · simp [List.nodup_append, hans]
          exact fun hid => hdisj id hmem hid
        · intro x hx
          have hx' := (hlive.mem_erase_iff).mp hx
          intro hcon
          rcases List.mem_append.mp hcon with hc | hc
          · exact hdisj x hx'.2 hc
          · simp at hc
            exact hx'.1 hc
      · simpa [hmem] using ⟨hlive, hans, hdisj⟩

/-- Well-formedness holds after running any trace of inbound method requests
and device responses from the initial dispatcher state. -/
theorem runMethods_wf (evs : List MethodEvent) : methodsWF (runMethods evs) := by
  have h : ∀ s : MethodState, methodsWF s → methodsWF (evs.foldl methodStep s) := by
    induction evs with
    | nil => intro s hs; simpa using hs
    | cons e evs ih =>
        intro s hs
        rw [List.foldl_cons]
        exact ih _ (methodStep_wf s e hs)
  exact h initMethods (by simp [methodsWF, initMethods])

/-- C3: after any trace of inbound invocations and responses, responding to a
live, not-yet-answered methodId succeeds (OK) and removes it from the live set,
so an immediate second response for the same methodId fails with the
correlation error; responding to an unknown or already-answered methodId fails
with the correlation error and changes nothing; and the log of responses
forwarded to the transport never holds two entries for one methodId. -/
theorem device_method_response_exactly_once (evs : List MethodEvent) :
    (∀ id : Nat, id ∈ (runMethods evs).live →
      (deviceMethodResponse (runMethods evs) id).2 = ClientResult.ok ∧
      id ∉ (deviceMethodResponse (runMethods evs) id).1.live ∧
      (deviceMethodResponse (deviceMethodResponse (runMethods evs) id).1 id).2 =
        ClientResult.invalidArg) ∧
    (∀ id : Nat, id ∉ (runMethods evs).live →
      deviceMethodResponse (runMethods evs) id = (runMethods evs, ClientResult.invalidArg)) ∧
    (runMethods evs).answered.Nodup := by
  obtain ⟨hlive, hans, hdisj⟩ := runMethods_wf evs
  refine ⟨?_, ?_, hans⟩
  · intro id hid
    have hnot : id ∉ ((runMethods evs).live.erase id) := hlive.not_mem_erase
    refine ⟨?_, ?_, ?_⟩
    · simp [deviceMethodResponse, hid]
    · simpa [deviceMethodResponse, hid] using hnot
    · simp [deviceMethodResponse, hid, hnot]
  · intro id hid
    simp [deviceMethodResponse, hid]

/-- Witness for C3 on a concrete trace: after invocations 1 and 2 arrive and 1
is answered, answering the live id 2 succeeds, re-answering the resolved id 1
fails with the correlation error, and the forwarded-response log is
duplicate-free. -/
theorem device_method_response_exactly_once_witness :
    (deviceMethodResponse
      (runMethods [MethodEvent.inbound 1, MethodEvent.inbound 2, MethodEvent.respond 1])
      2).2 = ClientResult.ok ∧
    deviceMethodResponse
      (runMethods [MethodEvent.inbound 1, MethodEvent.inbound 2, MethodEvent.respond 1])
      1 =
      (runMethods [MethodEvent.inbound 1, MethodEvent.inbound 2, MethodEvent.respond 1],
       ClientResult.invalidArg) :=
  ⟨((device_method_response_exactly_once
      [MethodEvent.inbound 1, MethodEvent.inbound 2, MethodEvent.respond 1]).1
      2 (by decide)).1,
   (device_method_response_exactly_once
      [MethodEvent.inbound 1, MethodEvent.inbound 2, MethodEvent.respond 1]).2.1
      1 (by decide)⟩

/-- C4: desired-patch application is idempotent and version-monotone —
replaying version `v` is a no-op after the first application (so the device
twin callback is invoked at most once for it), the tracked desired version
never decreases, a strictly newer patch is applied with exactly one callback
invocation, and a stale or duplicate patch is dropped with no callback and no
version change. -/
theorem twin_patch_idempotent_version_monotone (s : TwinState) (v : Nat) :
    applyDesiredPatch (applyDesiredPatch s v) v = applyDesiredPatch s v ∧
    (∀ cur : Nat, s.desiredVersion = some cur →
      ∃ newCur : Nat, (applyDesiredPatch s v).desiredVersion = some newCur ∧
        cur ≤ newCur) ∧
    ((s.desiredVersion = Option.none ∨ (∃ cur : Nat, s.desiredVersion = some cur ∧ cur < v)) →
      (applyDesiredPatch s v).callbackLog = s.callbackLog ++ [v] ∧
      (applyDesiredPatch s v).desiredVersion = some v) ∧
    (∀ cur : Nat, s.desiredVersion = some cur → v ≤ cur →
      applyDesiredPatch s v = s) := by
  refine ⟨?_, ?_, ?_, ?_⟩
  · cases hs : s.desiredVersion with
    | none => simp [applyDesiredPatch, hs]
    | some cur =>
        by_cases hlt : cur < v
        · simp [applyDesiredPatch, hs, hlt]
        · simp [applyDesiredPatch, hs, hlt]
  · intro cur hcur
    by_cases hlt : cur < v
    · exact ⟨v, by simp [applyDesiredPatch, hcur, hlt], le_of_lt hlt⟩
    · exact ⟨cur, by simp [applyDesiredPatch, hcur, hlt], le_refl cur⟩
  · intro hnew
    rcases hnew with hs | ⟨cur, hcur, hlt⟩
    · simp [applyDesiredPatch, hs]
    · simp [applyDesiredPatch, hcur, hlt]
  · intro cur hcur hle
    have hlt : ¬ cur < v := by omega
    simp [applyDesiredPatch, hcur, hlt]

/-- Witness for C4 at concrete inputs: from tracked desired version 7, patch
version 9 is applied once with one callback, replaying it is a no-op, and the
stale patch version 5 is dropped entirely (spec section 8 scenario). -/
theorem twin_patch_idempotent_version_monotone_witness :
    applyDesiredPatch (applyDesiredPatch ⟨some 7, [7]⟩ 9) 9 =
      applyDesiredPatch ⟨some 7, [7]⟩ 9 ∧
    (applyDesiredPatch ⟨some 7, [7]⟩ 9).callbackLog = [7] ++ [9] ∧
    applyDesiredPatch ⟨some 7, [7]⟩ 5 = (⟨some 7, [7]⟩ : TwinState) :=
  ⟨(twin_patch_idempotent_version_monotone ⟨some 7, [7]⟩ 9).1,
   ((twin_patch_idempotent_version_monotone ⟨some 7, [7]⟩ 9).2.2.1
      (Or.inr ⟨7, rfl, by decide⟩)).1,
   (twin_patch_idempotent_version_monotone ⟨some 7, [7]⟩ 5).2.2.2 7 rfl (by decide)⟩

/-- C6: starting a blob-upload session while one is active fails with the
"busy" (already-in-progress) result and changes nothing; starting from any
non-active state (Idle or any terminal state) succeeds and activates a session;
every terminal event moves an active session to a terminal state, from which a
subsequent start succeeds. -/
theorem blob_upload_single_session (s : UploadSessionState) (o : UploadOutcome) :
    startUploadSession UploadSessionState.uploading =
      (UploadSessionState.uploading, ClientResult.alreadyInProgress) ∧
    (s ≠ UploadSessionState.uploading →
      startUploadSession s = (UploadSessionState.uploading, ClientResult.ok)) ∧
    uploadSessionTerminal (uploadSessionStep UploadSessionState.uploading o) = true ∧
    startUploadSession (uploadSessionStep UploadSessionState.uploading o) =
      (UploadSessionState.uploading, ClientResult.ok) := by
  refine ⟨rfl, ?_, ?_, ?_⟩
  · intro hs
    simp [startUploadSession, hs]
  · cases o <;> rfl
  · cases o <;> rfl

/-- Witness for C6 at concrete inputs: a session that completed (device
signalled no more data) is terminal and a new start succeeds. -/
theorem blob_upload_single_session_witness :
    startUploadSession UploadSessionState.uploading =
      (UploadSessionState.uploading, ClientResult.alreadyInProgress) ∧
    startUploadSession UploadSessionState.idle =
      (UploadSessionState.uploading, ClientResult.ok) ∧
    startUploadSession (uploadSessionStep UploadSessionState.uploading
      UploadOutcome.noMoreData) = (UploadSessionState.uploading, ClientResult.ok) :=
  ⟨(blob_upload_single_session UploadSessionState.idle UploadOutcome.noMoreData).1,
   (blob_upload_single_session UploadSessionState.idle UploadOutcome.noMoreData).2.1
      (by decide),
   (blob_upload_single_session UploadSessionState.idle UploadOutcome.noMoreData).2.2.2⟩

/-- C8: an option name outside the recognized set fails with the distinct
"not supported" result, which is never OK, and leaves the configuration
unchanged. -/
theorem set_option_unknown_not_supported (cfg : ClientOptions) (optionName : String)
    (value : Nat) (h : optionName ∉ recognizedOptions) :
    setOption cfg optionName value = (cfg, ClientResult.notSupported) ∧
    ClientResult.notSupported ≠ ClientResult.ok := by
  constructor
  · simp [setOption, h]
  · intro hcon
    exact ClientResult.noConfusion hcon

/-- Witness for C8 at a concrete input: the unknown option name "bogus" is
rejected as not supported and the (empty) configuration is unchanged. -/
theorem set_option_unknown_not_supported_witness :
    setOption ⟨[]⟩ "bogus" 1 = (⟨[]⟩, ClientResult.notSupported) ∧
    ClientResult.notSupported ≠ ClientResult.ok :=
  set_option_unknown_not_supported ⟨[]⟩ "bogus" 1 (by decide)

/-- C9: calling `uploadToBlob` with a NULL source and a nonzero size returns
the invalid-argument error (which is never OK) and leaves the session state
unchanged — no upload session is started. -/
theorem upload_to_blob_null_source_guard (s : UploadSessionState)
    (destinationFileName : String) (size : Nat) (h : 0 < size) :
    uploadToBlob s destinationFileName Option.none size = (s, ClientResult.invalidArg) ∧
    ClientResult.invalidArg ≠ ClientResult.ok := by
  constructor
  · have hsz : size ≠ 0 := by omega
    simp [uploadToBlob, hsz]
  · intro hcon
    exact ClientResult.noConfusion hcon

/-- Witness for C9 at a concrete input: a NULL source with size 4 from the Idle
state is rejected as an invalid argument and the state stays Idle. -/
theorem upload_to_blob_null_source_guard_witness :
    uploadToBlob UploadSessionState.idle "f.txt" Option.none 4 =
      (UploadSessionState.idle, ClientResult.invalidArg) ∧
    ClientResult.invalidArg ≠ ClientResult.ok :=
  upload_to_blob_null_source_guard UploadSessionState.idle "f.txt" 4 (by decide)

/-- Every sequence of callback registrations ends with exactly the last
registration in the slot. -/
theorem setMessageCallback_foldl (cbs : List (Option (Nat × Nat))) :
    ∀ s : MessageCallbackState,
      (cbs.foldl (fun st c => (setMessageCallback st c).1) s).messageCallback =
        lastRegistered cbs s.messageCallback := by
  induction cbs with
  | nil => intro s; rfl
  | cons c cs ih =>
      intro s
      rw [List.foldl_cons, ih]
      rfl

/-- C10: `setMessageCallback` always succeeds and overwrites the single
callback slot with the new callback and context, inbound messages are
delivered to exactly the callback currently in the slot, and after any sequence
of registrations the slot holds precisely the most recent one. -/
theorem message_callback_single_slot (s : MessageCallbackState)
    (cb : Option (Nat × Nat)) (cbs : List (Option (Nat × Nat))) :
    (setMessageCallback s cb).2 = ClientResult.ok ∧
    (setMessageCallback s cb).1.messageCallback = cb ∧
    deliverInboundMessage (setMessageCallback s cb).1 = cb ∧
    (cbs.foldl (fun st c => (setMessageCallback st c).1) s).messageCallback =
      lastRegistered cbs s.messageCallback :=
  ⟨rfl, rfl, rfl, setMessageCallback_foldl cbs s⟩
